import Mathlib

/-!
Verification development for the modelwhiz evaluation-job pipeline.

The embedding translates the pipeline code (artifact stager, Celery task
wrapper, evaluation worker, storage lifecycle helpers, insight generator)
into executable Lean definitions.  The filesystem is modelled as a set of
paths (a path being its list of components), the database as in-memory
lists of rows, and the external numeric library (sklearn scoring, joblib
loading, plotting) as an environment value describing the outcome of each
external call.  Exceptions raised by external calls are injected through
explicit outcome parameters; `try/except` blocks of the source become the
corresponding case splits.
-/

namespace ModelWhiz

/-- A filesystem path, as its list of components
(for example `uploads/eval_jobs/7` is `["uploads", "eval_jobs", "7"]`). -/
abbrev Path := List String

/-- Filesystem state: the set of paths (files and directories) that exist,
kept as a duplicate-free list. -/
structure FS where
  paths : List Path
deriving DecidableEq

/-- Membership test, `os.path.exists`. -/
def FS.hasPath (fs : FS) (p : Path) : Bool := fs.paths.contains p

/-- Create a file or directory (`open(..., "wb")`, `os.makedirs(..., exist_ok=True)`). -/
def FS.addPath (fs : FS) (p : Path) : FS :=
  if fs.hasPath p then fs else { paths := p :: fs.paths }

/-- Create several files. -/
def FS.addPaths (fs : FS) (ps : List Path) : FS := ps.foldl FS.addPath fs

/-- Delete one file if present (`os.remove` guarded by `os.path.exists`). -/
def FS.removeFile (fs : FS) (p : Path) : FS :=
  { paths := fs.paths.filter (fun q => !(q == p)) }

/-- Delete a directory tree (`shutil.rmtree`): the directory itself and every
path below it disappear. -/
def FS.rmtree (fs : FS) (d : Path) : FS :=
  { paths := fs.paths.filter (fun q => !(d.isPrefixOf q)) }

/-- Job lifecycle states, from `app/models/evaluation_job.py`. -/
inductive JobStatus
  | PENDING
  | PROCESSING
  | COMPLETED
  | FAILED
deriving DecidableEq

/-- A JSON value, restricted to the shapes this pipeline persists:
numbers (metric values), strings (plot URLs), lists of strings (insights),
and null. -/
inductive JVal
  | null
  | num (q : ℚ)
  | str (s : String)
  | strList (l : List String)
deriving DecidableEq

/-- Whether a JSON value is a number. -/
def JVal.isNum : JVal → Bool
  | .num _ => true
  | _ => false

/-- A persisted JSON object (insertion-ordered, as a Python dict). -/
abbrev JsonObj := List (String × JVal)

/-- Row of `evaluation_jobs` (`EvaluationJob` in `app/models/evaluation_job.py`).
`results`, `artifacts`, `error_message`, `task_id` and `completed_at` are
nullable and start as null; `status` defaults to PENDING. -/
structure EvaluationJob where
  id : Nat
  userId : String
  modelName : String
  modelId : Nat
  status : JobStatus
  taskId : Option String
  results : Option JsonObj
  artifacts : Option JsonObj
  errorMessage : Option String
  completedAt : Option Nat
deriving DecidableEq

/-- Row of `ml_models` (`MLModel` in `app/models/model.py`). -/
structure MLModel where
  id : Nat
  userId : String
  name : String
  version : String
  filename : Path
  latestMetrics : Option JsonObj
  taskType : Option String
deriving DecidableEq

/-- Row of `metrics` (`Metric` in `app/models/metric.py`). -/
structure Metric where
  modelId : Nat
  values : JsonObj
  timestamp : Nat
deriving DecidableEq

/-- Committed database state. `nextJobId` / `nextModelId` model the
autoincrement primary-key sequences. -/
structure DB where
  jobs : List EvaluationJob
  models : List MLModel
  metricRecords : List Metric
  nextJobId : Nat
  nextModelId : Nat
deriving DecidableEq

/-- `select(EvaluationJob).where(EvaluationJob.id == job_id)` followed by
`scalar_one_or_none()`. -/
def DB.findJob (db : DB) (i : Nat) : Option EvaluationJob :=
  db.jobs.find? (fun j => j.id == i)

/-- `select(MLModel).where(MLModel.id == model_id)` followed by
`scalar_one_or_none()`. -/
def DB.findModel (db : DB) (i : Nat) : Option MLModel :=
  db.models.find? (fun m => m.id == i)

/-- Mutate the job row with the given id (attribute assignment + commit). -/
def DB.updateJob (db : DB) (i : Nat) (f : EvaluationJob → EvaluationJob) : DB :=
  { db with jobs := db.jobs.map (fun j => if j.id = i then f j else j) }

/-- Mutate the model row with the given id (attribute assignment + commit). -/
def DB.updateModel (db : DB) (i : Nat) (f : MLModel → MLModel) : DB :=
  { db with models := db.models.map (fun m => if m.id = i then f m else m) }

/-! ## Storage lifecycle helpers (`app/utils/file_cleanup.py`) -/

/-- Alert-level computation of `get_storage_usage` (lines 167-172): start at
"normal", overwrite with "warning" below 5120 MB free, then with "critical"
below 1024 MB free. -/
def storageAlertLevel (freeMb : Nat) : String :=
  let a := "normal"
  let a := if freeMb < 5120 then "warning" else a
  let a := if freeMb < 1024 then "critical" else a
  a

/-- Result shape of `get_storage_usage`. -/
structure StorageUsage where
  totalSizeMb : Nat
  usedSizeMb : Nat
  freeSizeMb : Nat
  alertLevel : String
  usagePercentage : ℚ
deriving DecidableEq

/-- `get_storage_usage` in `app/utils/file_cleanup.py`, as a function of the
total/used/free megabyte counts reported by `shutil.disk_usage`
(`used / total * 100` written as the exact rational `used * 100 / total`). -/
def get_storage_usage (totalMb usedMb freeMb : Nat) : StorageUsage :=
  { totalSizeMb := totalMb
    usedSizeMb := usedMb
    freeSizeMb := freeMb
    alertLevel := storageAlertLevel freeMb
    usagePercentage := if 0 < totalMb then mkRat (usedMb * 100) totalMb else 0 }

/-- `validate_file_size`: the size in MB (`bytes / (1024*1024)`) must not
exceed the ceiling; `bytes / 1048576 > max` is written as the equivalent
integer comparison `bytes > max * 1048576`. -/
def validate_file_size (sizeBytes : Nat) (maxSizeMb : Nat) : Bool :=
  if maxSizeMb * 1024 * 1024 < sizeBytes then false else true

/-- `validate_file_type`: the lowercased extension must be in the allow-list. -/
def validate_file_type (ext : String) (allowed : List String) : Bool :=
  allowed.contains ext

/-- Result of `cleanup_model_files`. -/
structure ModelCleanupResult where
  modelId : Nat
  removed : Bool
  error : Option String
deriving DecidableEq

/-- Directory `uploads/eval_jobs/{model_id}/` targeted by `cleanup_model_files`. -/
def modelCleanupDir (modelId : Nat) : Path := ["uploads", "eval_jobs", toString modelId]

/-- `cleanup_model_files` in `app/utils/file_cleanup.py`: delete the directory
`uploads/eval_jobs/{model_id}/` if it exists, otherwise do nothing.  The
`except` branch collecting an OS error is represented by the `error` field;
the modelled `rmtree` does not fail. -/
def cleanup_model_files (modelId : Nat) (fs : FS) : FS × ModelCleanupResult :=
  let dir := modelCleanupDir modelId
  if fs.hasPath dir then
    (fs.rmtree dir, { modelId := modelId, removed := true, error := none })
  else
    (fs, { modelId := modelId, removed := false, error := none })

/-- A file with its modification time (seconds), for the age-based sweep. -/
structure TimedFile where
  path : Path
  mtime : Int
deriving DecidableEq

/-- Filesystem view used by the sweep: the files with their mtimes. -/
structure TimedFS where
  files : List TimedFile
deriving DecidableEq

/-- The job-artifact root `uploads/eval_jobs/` that `cleanup_old_files` walks. -/
def evalJobsRoot : Path := ["uploads", "eval_jobs"]

/-- Return shape of `cleanup_old_files`: the removed paths and the per-file
errors (the source returns their counts plus error details). -/
structure SweepReport where
  removedPaths : List Path
  errorPaths : List Path
deriving DecidableEq

/-- A file matches the sweep criterion when it lies under `uploads/eval_jobs/`
and its modification time is older than `now - days_old` days. -/
def sweepOld (daysOld : Nat) (now : Int) (f : TimedFile) : Bool :=
  evalJobsRoot.isPrefixOf f.path && decide (f.mtime < now - (daysOld : Int) * 86400)

/-- `cleanup_old_files` in `app/utils/file_cleanup.py`: walk the job-artifact
root and remove every file older than the cutoff; an `os.remove` failure is
collected into the errors list and the walk continues.  `failRemove` says
which removals raise.  (When the root holds no files the source returns early
with a zero count, which coincides with the empty walk.) -/
def cleanup_old_files (daysOld : Nat) (now : Int) (failRemove : Path → Bool)
    (fs : TimedFS) : TimedFS × SweepReport :=
  let targets := fs.files.filter (sweepOld daysOld now)
  let removed := targets.filter (fun f => !(failRemove f.path))
  let errs := targets.filter (fun f => failRemove f.path)
  ({ files := fs.files.filter (fun f => !(sweepOld daysOld now f && !(failRemove f.path))) },
   { removedPaths := removed.map (fun f => f.path)
     errorPaths := errs.map (fun f => f.path) })

/-! ## Insight generator (`app/evaluation_engine/insight_generator.py`)

The source interpolates the metric value into some regression messages
(`f"... ({r2:.2f}) ..."`); the embedding keeps the constant text of each
message, since only which insights fire is at stake. -/

/-- Classification message for a low weighted F1 score. -/
def insightLowF1 : String :=
  "⚠️ F1 Score is low. This may indicate a class imbalance. Review precision and recall for each class."

/-- Classification message for a modest AUC. -/
def insightLowAuc : String :=
  "📉 AUC score is modest. The model has limited ability to distinguish between classes."

/-- Classification message for a high AUC paired with a moderate F1 score. -/
def insightAucF1Mismatch : String :=
  "🔍 High AUC but moderate F1 Score. This can happen with an unoptimized classification threshold or imbalanced classes."

/-- Classification message for low accuracy. -/
def insightLowAccuracy : String :=
  "📉 Accuracy is low. The model is performing slightly better than random chance."

/-- Regression message for a low R² score. -/
def insightLowR2 : String :=
  "📉 Low R² Score: The model explains less than 50 percent of the variance in the target variable. Consider adding more predictive features."

/-- Regression message for a strong R² score. -/
def insightStrongR2 : String :=
  "✅ Strong R² Score: The model explains a large portion of the variance in the target."

/-- Regression message for a high RMSE. -/
def insightHighRmse : String :=
  "⚠️ High RMSE: The model predictions are, on average, far from the actual values. Check for outliers or consider feature scaling."

/-- Default message emitted when no rule fires. -/
def insightDefault : String :=
  "✅ Solid performance metrics. The model appears to be well-calibrated for this dataset."

/-- `metrics.get(key)` on a metric dictionary (name to numeric value). -/
def metricLookup (m : List (String × ℚ)) (k : String) : Option ℚ :=
  (m.find? (fun kv => kv.1 == k)).map (fun kv => kv.2)

/-- Regression branch of `generate_insights`: the R² rule pair
(`< 0.5` warns, `elif > 0.85` notes strength) then the RMSE rule (`> 1.0`). -/
def regressionInsightList (m : List (String × ℚ)) : List String :=
  (match metricLookup m "r2_score" with
    | some r2 =>
        if r2 < mkRat 1 2 then [insightLowR2]
        else if mkRat 17 20 < r2 then [insightStrongR2]
        else []
    | none => []) ++
  (match metricLookup m "rmse" with
    | some rmse => if mkRat 1 1 < rmse then [insightHighRmse] else []
    | none => [])

/-- Classification branch of `generate_insights`: F1 `< 0.7`, AUC `< 0.7`,
AUC `> 0.9` with F1 `< 0.8`, accuracy `< 0.6`. -/
def classificationInsightList (m : List (String × ℚ)) : List String :=
  (match metricLookup m "f1_score" with
    | some f1 => if f1 < mkRat 7 10 then [insightLowF1] else []
    | none => []) ++
  (match metricLookup m "auc" with
    | some auc => if auc < mkRat 7 10 then [insightLowAuc] else []
    | none => []) ++
  (match metricLookup m "auc", metricLookup m "f1_score" with
    | some auc, some f1 =>
        if mkRat 9 10 < auc && f1 < mkRat 4 5 then [insightAucF1Mismatch] else []
    | _, _ => []) ++
  (match metricLookup m "accuracy" with
    | some acc => if acc < mkRat 3 5 then [insightLowAccuracy] else []
    | none => [])

/-- `generate_insights`: run the regression rule set when the dictionary has
an `rmse` key, otherwise the classification rule set; if nothing fired,
return the single default insight. -/
def generate_insights (m : List (String × ℚ)) : List String :=
  let base :=
    if (metricLookup m "rmse").isSome then regressionInsightList m
    else classificationInsightList m
  if base.isEmpty then [insightDefault] else base

/-! ## Evaluation worker (`app/evaluation_engine/main_evaluator.py`) -/

/-- Round an exact rational to the nearest integer, ties to even (the
behaviour of Python `round`), computed on the numerator and denominator:
`fl` is the floor and `r` the numerator of the fractional part, so the
fraction is below / above / at one half according as `2r` compares to the
denominator. -/
def roundHalfEven (q : ℚ) : ℤ :=
  let fl := q.num.fdiv (q.den : ℤ)
  let r := q.num - fl * (q.den : ℤ)
  if 2 * r < (q.den : ℤ) then fl
  else if (q.den : ℤ) < 2 * r then fl + 1
  else if fl % 2 = 0 then fl else fl + 1

/-- `round(v, 4)`: round `v * 10000` to the nearest integer (ties to even)
and divide back, written with `mkRat` so that `q * 10000` is the exact
rational with numerator `q.num * 10000`. -/
def round4 (q : ℚ) : ℚ := mkRat (roundHalfEven (mkRat (q.num * 10000) q.den)) 10000

/-- Outcome of the external calls in a run of the evaluation body that
raises no exception: what joblib, pandas, sklearn and matplotlib return. -/
structure SuccessData where
  /-- `model._estimator_type`, when the attribute exists. -/
  estimatorType : Option String
  /-- `len(y.unique())` on the full target column. -/
  nUniqueTarget : Nat
  /-- whether `y.dtype` is `object` or `int64`. -/
  targetDiscrete : Bool
  /-- `len(y_test.unique())`. -/
  nUniqueTest : Nat
  /-- `accuracy_score(y_test, y_pred)`. -/
  accuracy : ℚ
  /-- `f1_score(y_test, y_pred, average="weighted")`. -/
  f1 : ℚ
  /-- whether the model has `predict_proba`. -/
  hasProba : Bool
  /-- `y_proba.shape[1]`. -/
  probaCols : Nat
  /-- result of the `roc_auc_score` call: a value, or the raised message. -/
  aucScore : Except String ℚ
  /-- `mean_squared_error(y_test, y_pred, squared=False)`. -/
  rmse : ℚ
  /-- `r2_score(y_test, y_pred)`. -/
  r2 : ℚ
  /-- whether the plot rendering call succeeds. -/
  plotOk : Bool
  /-- whether `preprocessor.pkl` is found in the extracted tree. -/
  preprocessorInPackage : Bool
  /-- whether `build_auto_preprocessor` returns a pipeline (non-None). -/
  autoPreprocessorBuilt : Bool
  /-- filenames the archive extraction writes under the job directory. -/
  packageFiles : List String
  /-- `datetime.utcnow()` at completion. -/
  finishTime : Nat

/-- The classification/regression decision (lines 165-169): an explicit
`classifier` tag wins, an explicit `regressor` tag forces regression,
otherwise classification iff the target has fewer than 30 distinct values
and a discrete/text dtype. -/
def isClassificationOf (d : SuccessData) : Bool :=
  if d.estimatorType == some "classifier" then true
  else if d.estimatorType == some "regressor" then false
  else decide (d.nUniqueTarget < 30) && d.targetDiscrete

/-- The value stored under `metrics["auc"]` (lines 175-188): a score when
probabilities exist with a usable shape and `roc_auc_score` succeeds,
None (here `none`) in every other branch, including the caught exception. -/
def classifAuc (d : SuccessData) : Option ℚ :=
  if d.hasProba then
    if d.nUniqueTest == 2 && d.probaCols == 2 then d.aucScore.toOption
    else if 2 < d.probaCols then d.aucScore.toOption
    else none
  else none

/-- The `metrics` dictionary as built before filtering: classification gets
accuracy, weighted F1 and the (possibly None) AUC; regression gets RMSE
and R². -/
def rawMetrics (d : SuccessData) : List (String × Option ℚ) :=
  if isClassificationOf d then
    [("accuracy", some d.accuracy), ("f1_score", some d.f1), ("auc", classifAuc d)]
  else
    [("rmse", some d.rmse), ("r2_score", some d.r2)]

/-- `final_metrics = {k: round(v, 4) for k, v in metrics.items() if v is not None}`. -/
def finalMetrics (d : SuccessData) : List (String × ℚ) :=
  (rawMetrics d).filterMap (fun kv => kv.2.map (fun v => (kv.1, round4 v)))

/-- `insights_from_preprocessing` (lines 119-131): empty when a preprocessor
was shipped in the package, otherwise one note about the auto-preprocessor. -/
def preprocessingInsights (d : SuccessData) : List String :=
  if d.preprocessorInPackage then []
  else if d.autoPreprocessorBuilt then
    ["✅ An Auto-Preprocessor was built and fitted on your data."]
  else
    ["ℹ️ No preprocessing was needed for this dataset."]

/-- The permanent job directory `uploads/eval_jobs/{job_id}`. -/
def jobDirPath (jobId : Nat) : Path := ["uploads", "eval_jobs", toString jobId]

/-- Plot filename chosen by the task type. -/
def plotFileName (d : SuccessData) : String :=
  if isClassificationOf d then "confusion_matrix.png" else "regression_plot.png"

/-- The `/uploads/eval_jobs/{job_id}/{artifact_filename}` URL. -/
def plotUrl (jobId : Nat) (d : SuccessData) : String :=
  "/uploads/eval_jobs/" ++ toString jobId ++ "/" ++ plotFileName d

/-- The dict stored into `job.results` on success.  The source assigns
`job.results = final_metrics` and then inserts the `insights` key into that
same dict object; `ml_model.latest_metrics` and the new `Metric.values` are
later assigned the very same (now insight-carrying) dict, so all three
payloads are this object. -/
def resultsJson (d : SuccessData) : JsonObj :=
  (finalMetrics d).map (fun kv => (kv.1, JVal.num kv.2)) ++
    [("insights", JVal.strList (preprocessingInsights d ++ generate_insights (finalMetrics d)))]

/-- The dict stored into `job.artifacts` on success: the plot URL, or null
when rendering failed (a non-fatal error). -/
def artifactsJson (jobId : Nat) (d : SuccessData) : JsonObj :=
  [("plot_url", if d.plotOk then JVal.str (plotUrl jobId d) else JVal.null)]

/-- What one invocation of the evaluation body does, as determined by the
environment. -/
inductive EvalRun
  /-- every external call succeeds, with the given outcomes. -/
  | ok (d : SuccessData)
  /-- an exception with message `msg` is raised in the body after the
  PROCESSING commit; `statusCommitFails` injects a failure into the
  `db_session.commit()` of the `except` handler; `extracted` are any
  filenames the archive extraction wrote before the failure. -/
  | fail (msg : String) (statusCommitFails : Bool) (extracted : List String)
  /-- opening the session or executing the initial job query raises, before
  `job` is ever bound (the `except` handler then trips on the unbound name
  and the exception escapes to the caller). -/
  | sessionFail (msg : String)

/-- Result of one evaluator invocation: committed database, filesystem, and
whether an exception escaped to the caller. -/
structure EvalResult where
  db : DB
  fs : FS
  escaped : Bool
deriving DecidableEq

/-- The `finally` block (lines 269-282): delete the original uploaded zip
and csv, each guarded by an existence check. -/
def finallyCleanup (zipPath csvPath : Path) (fs : FS) : FS :=
  (fs.removeFile zipPath).removeFile csvPath

/-- `run_evaluation_task` in `app/evaluation_engine/main_evaluator.py`.

Control skeleton of the source: load the job row (exit silently when
absent); set status PROCESSING and commit; create the job directory and
extract the archive into it; run load/preprocess/predict/score/plot; persist
results, artifacts, COMPLETED and the completion timestamp, refresh the
owning model's metrics snapshot and task type, append a `Metric` row, and
commit.  Any exception in the body is caught once: the job is set FAILED
with the exception message (a failing commit there is itself absorbed) and
the job directory is deleted.  The `finally` block always deletes the
original zip and csv.  The final success-path commit is modelled as
succeeding; an exception before `job` is bound escapes (`sessionFail`). -/
def run_evaluation_task (jobId modelId : Nat) (zipPath csvPath : Path)
    (run : EvalRun) (db : DB) (fs : FS) : EvalResult :=
  let jobDir := jobDirPath jobId
  match run with
  | .sessionFail _ =>
      { db := db, fs := finallyCleanup zipPath csvPath fs, escaped := true }
  | .fail msg cf extracted =>
      match db.findJob jobId with
      | none => { db := db, fs := finallyCleanup zipPath csvPath fs, escaped := false }
      | some _ =>
          let db1 := db.updateJob jobId (fun j => { j with status := .PROCESSING })
          let fs1 := (fs.addPath jobDir).addPaths (extracted.map (fun n => jobDir ++ [n]))
          let db2 :=
            if cf then db1
            else db1.updateJob jobId
              (fun j => { j with status := .FAILED, errorMessage := some msg })
          let fs2 := fs1.rmtree jobDir
          { db := db2, fs := finallyCleanup zipPath csvPath fs2, escaped := false }
  | .ok d =>
      match db.findJob jobId with
      | none => { db := db, fs := finallyCleanup zipPath csvPath fs, escaped := false }
      | some _ =>
          let db1 := db.updateJob jobId (fun j => { j with status := .PROCESSING })
          let fs1 := (fs.addPath jobDir).addPaths (d.packageFiles.map (fun n => jobDir ++ [n]))
          let fs2 := if d.plotOk then fs1.addPath (jobDir ++ [plotFileName d]) else fs1
          let db2 := db1.updateJob jobId (fun j =>
            { j with
              status := .COMPLETED
              results := some (resultsJson d)
              artifacts := some (artifactsJson jobId d)
              completedAt := some d.finishTime })
          let db3 :=
            match db2.findModel modelId with
            | some _ => db2.updateModel modelId (fun m =>
                { m with
                  latestMetrics := some (resultsJson d)
                  taskType :=
                    some (if isClassificationOf d then "classification" else "regression") })
            | none => db2
          let db4 := { db3 with
            metricRecords :=
              db3.metricRecords ++ [⟨modelId, resultsJson d, d.finishTime⟩] }
          { db := db4, fs := finallyCleanup zipPath csvPath fs2, escaped := false }

/-! ## Celery task wrapper (`app/workers/tasks.py`, `evaluate_model_async`) -/

/-- The wrapper's `update_job_status` helper: load the job and set its
status; a missing job only logs a warning, and its own `try/except` absorbs
any database error, so the helper never raises. -/
def update_job_status (db : DB) (jobId : Nat) (s : JobStatus) : DB :=
  match db.findJob jobId with
  | some _ => db.updateJob jobId (fun j => { j with status := s })
  | none => db

/-- Result of the Celery task body: committed database, filesystem, and
whether the task re-raised for a Celery retry. -/
structure TaskResult where
  db : DB
  fs : FS
  retried : Bool
deriving DecidableEq

/-- `evaluate_model_async` (lines 224-295): unconditionally set the job
PROCESSING, run the evaluator, then set COMPLETED when the evaluator
returned normally; when the evaluator raised, set FAILED and re-raise for a
retry.  No status check precedes the PROCESSING transition. -/
def evaluate_model_async (jobId modelId : Nat) (zipPath csvPath : Path)
    (run : EvalRun) (db : DB) (fs : FS) : TaskResult :=
  let db1 := update_job_status db jobId .PROCESSING
  let r := run_evaluation_task jobId modelId zipPath csvPath run db1 fs
  if r.escaped then
    { db := update_job_status r.db jobId .FAILED, fs := r.fs, retried := true }
  else
    { db := update_job_status r.db jobId .COMPLETED, fs := r.fs, retried := false }

/-! ## Artifact stager (`app/api/evaluations.py`, `start_evaluation`) -/

/-- The steps of the submission try-block (lines 86-166) at which an
exception can be injected. -/
inductive StagerStep
  | saveCsv
  | saveModel
  | savePre
  | createZip
  | countQuery
  | commitModel
  | commitJob
  | dispatch
  | commitTaskId
deriving DecidableEq

/-- Environment of one submission: the request fields, the values produced
by the external collaborators (disk usage, uuid, Celery task id), and the
step at which an exception is raised, if any. -/
structure SubmitEnv where
  /-- free megabytes reported by `shutil.disk_usage`. -/
  freeMb : Nat
  /-- `model_file.filename`. -/
  modelFilename : String
  /-- lowercased extension of the model file, as `os.path.splitext` yields. -/
  modelFileExt : String
  /-- size in bytes of the uploaded model file. -/
  modelFileSizeBytes : Nat
  /-- `dataset.filename`. -/
  datasetFilename : String
  /-- `preprocessor_file.filename`, when a preprocessor was uploaded. -/
  preprocessorFilename : Option String
  userId : String
  modelName : String
  /-- `str(uuid.uuid4())[:8]`. -/
  uniqueId : String
  /-- the Celery correlation id returned by `.delay`. -/
  dispatchTaskId : String
  /-- first step of the try-block that raises, if any. -/
  failAt : Option StagerStep
deriving DecidableEq

/-- The staging root `uploads/temp`. -/
def uploadTempDir : Path := ["uploads", "temp"]

/-- The `uploads/temp/temp_{filename}` copy written for the size check. -/
def tempModelPath (env : SubmitEnv) : Path :=
  uploadTempDir ++ ["temp_" ++ env.modelFilename]

/-- `uploads/temp/{user_id}_{unique_id}_{dataset.filename}`. -/
def stagedCsvPath (env : SubmitEnv) : Path :=
  uploadTempDir ++ [env.userId ++ "_" ++ env.uniqueId ++ "_" ++ env.datasetFilename]

/-- `uploads/temp/{user_id}_{unique_id}_{model_file.filename}`. -/
def stagedModelPath (env : SubmitEnv) : Path :=
  uploadTempDir ++ [env.userId ++ "_" ++ env.uniqueId ++ "_" ++ env.modelFilename]

/-- `uploads/temp/{user_id}_{unique_id}_{preprocessor_file.filename}`. -/
def stagedPrePath (env : SubmitEnv) : Option Path :=
  env.preprocessorFilename.map
    (fun n => uploadTempDir ++ [env.userId ++ "_" ++ env.uniqueId ++ "_" ++ n])

/-- `uploads/temp/{user_id}_{unique_id}_package.zip`. -/
def stagedZipPath (env : SubmitEnv) : Path :=
  uploadTempDir ++ [env.userId ++ "_" ++ env.uniqueId ++ "_package.zip"]

/-- Response of the submission endpoint: the created job and task ids, or an
HTTP error with its status code. -/
inductive StagerOutcome
  | accepted (jobId : Nat) (taskId : String)
  | rejected (statusCode : Nat) (detail : String)
deriving DecidableEq

/-- State carried to the exception handler: the message, the committed
database, the filesystem, and `temp_files_for_cleanup` at the raise point. -/
structure StagerRaise where
  msg : String
  db : DB
  fs : FS
  cleanupList : List Path
deriving DecidableEq

/-- Raise-point check for one step of the try-block. -/
def stepCheck (env : SubmitEnv) (s : StagerStep) (msg : String) (db : DB)
    (fs : FS) (cl : List Path) : Except StagerRaise Unit :=
  if env.failAt == some s then .error ⟨msg, db, fs, cl⟩ else .ok ()

/-- The try-block of `start_evaluation` (lines 86-166): save the dataset,
model and optional preprocessor under collision-resistant names, bundle the
package archive and delete the loose copies, count prior versions, insert
and commit the `MLModel` row, insert and commit the `EvaluationJob` row,
dispatch to Celery, and commit the returned task id onto the job.  Each
database insert commits immediately, as in the source. -/
def stagerTry (env : SubmitEnv) (db0 : DB) (fs0 : FS) :
    Except StagerRaise (DB × FS × StagerOutcome) := do
  stepCheck env .saveCsv "failed saving dataset file" db0 fs0 []
  let fs1 := fs0.addPath (stagedCsvPath env)
  stepCheck env .saveModel "failed saving model file" db0 fs1 []
  let fs2 := fs1.addPath (stagedModelPath env)
  let cl1 := [stagedModelPath env]
  let step3 ←
    match stagedPrePath env with
    | some p => do
        stepCheck env .savePre "failed saving preprocessor file" db0 fs2 cl1
        pure (fs2.addPath p, cl1 ++ [p])
    | none => pure (fs2, cl1)
  let fs3 := step3.1
  let cl2 := step3.2
  stepCheck env .createZip "failed creating package archive" db0 fs3 cl2
  let fs4 := (fs3.addPath (stagedZipPath env)).removeFile (stagedModelPath env)
  let fs4 :=
    match stagedPrePath env with
    | some p => fs4.removeFile p
    | none => fs4
  stepCheck env .countQuery "failed counting prior versions" db0 fs4 cl2
  let n := (db0.models.filter
    (fun m => m.name == env.modelName && m.userId == env.userId)).length
  stepCheck env .commitModel "failed committing model row" db0 fs4 cl2
  let mid := db0.nextModelId
  let db1 := { db0 with
    models := db0.models ++
      [{ id := mid
         userId := env.userId
         name := env.modelName
         version := "v" ++ toString (n + 1)
         filename := stagedZipPath env
         latestMetrics := some []
         taskType := none }]
    nextModelId := mid + 1 }
  stepCheck env .commitJob "failed committing job row" db1 fs4 cl2
  let jid := db1.nextJobId
  let db2 := { db1 with
    jobs := db1.jobs ++
      [{ id := jid
         userId := env.userId
         modelName := env.modelName
         modelId := mid
         status := .PENDING
         taskId := none
         results := none
         artifacts := none
         errorMessage := none
         completedAt := none }]
    nextJobId := jid + 1 }
  stepCheck env .dispatch "failed dispatching evaluation task" db2 fs4 cl2
  stepCheck env .commitTaskId "failed committing task id" db2 fs4 cl2
  let db3 := db2.updateJob jid (fun j => { j with taskId := some env.dispatchTaskId })
  pure (db3, fs4, .accepted jid env.dispatchTaskId)

/-- The exception handler of `start_evaluation` (lines 168-187): roll back
(already-committed rows stay), delete the staged csv, the package archive
and every tracked loose file — but not the `temp_` size-check copy — and
answer 500. -/
def stagerHandler (env : SubmitEnv) (e : StagerRaise) : DB × FS × StagerOutcome :=
  let fs := ((stagedCsvPath env) :: (stagedZipPath env) :: e.cleanupList).foldl
    FS.removeFile e.fs
  (e.db, fs, .rejected 500 ("Evaluation setup failed: " ++ e.msg))

/-- `start_evaluation` in `app/api/evaluations.py`: reject when storage is
critical; write the `temp_` copy; reject oversized (413) or disallowed
(400) model files, removing the copy; then run the try-block, falling into
the handler on any injected exception. -/
def start_evaluation (env : SubmitEnv) (db : DB) (fs : FS) :
    DB × FS × StagerOutcome :=
  if storageAlertLevel env.freeMb == "critical" then
    (db, fs, .rejected 507 "Insufficient storage space")
  else
    let fs := fs.addPath (tempModelPath env)
    if !(validate_file_size env.modelFileSizeBytes 100) then
      (db, fs.removeFile (tempModelPath env), .rejected 413 "File too large")
    else if !(validate_file_type env.modelFileExt [".pkl", ".joblib", ".zip"]) then
      (db, fs.removeFile (tempModelPath env), .rejected 400 "File type not allowed")
    else
      match stagerTry env db fs with
      | .ok r => r
      | .error e => stagerHandler env e

/-! ## Concrete fixtures used by the claim theorems -/

/-- A job row that already reached COMPLETED. -/
def jobCompleted : EvaluationJob :=
  { id := 1
    userId := "u1"
    modelName := "m"
    modelId := 1
    status := .COMPLETED
    taskId := some "t0"
    results := some [("accuracy", JVal.num (mkRat 9 10))]
    artifacts := none
    errorMessage := none
    completedAt := some 100 }

/-- A database holding only the completed job. -/
def dbCompleted : DB :=
  { jobs := [jobCompleted], models := [], metricRecords := [], nextJobId := 2, nextModelId := 2 }

/-- A freshly staged PENDING job row. -/
def jobPending : EvaluationJob :=
  { id := 1
    userId := "u1"
    modelName := "m"
    modelId := 1
    status := .PENDING
    taskId := some "t1"
    results := none
    artifacts := none
    errorMessage := none
    completedAt := none }

/-- A database holding only the pending job. -/
def dbPending : DB :=
  { jobs := [jobPending], models := [], metricRecords := [], nextJobId := 2, nextModelId := 2 }

/-- Staged package path used in the worker fixtures. -/
def zipP : Path := ["uploads", "temp", "u1_abc_package.zip"]

/-- Staged dataset path used in the worker fixtures. -/
def csvP : Path := ["uploads", "temp", "u1_abc_data.csv"]

/-- A submission environment in which every step succeeds. -/
def submitEnvOk : SubmitEnv :=
  { freeMb := 10000
    modelFilename := "model.pkl"
    modelFileExt := ".pkl"
    modelFileSizeBytes := 1000
    datasetFilename := "data.csv"
    preprocessorFilename := none
    userId := "u1"
    modelName := "m"
    uniqueId := "abc12345"
    dispatchTaskId := "task-1"
    failAt := none }

/-- The same submission, with the Celery dispatch step raising. -/
def submitEnvDispatchFails : SubmitEnv := { submitEnvOk with failAt := some .dispatch }

/-- An empty database. -/
def emptyDB : DB := { jobs := [], models := [], metricRecords := [], nextJobId := 1, nextModelId := 1 }

/-! ## Claim theorems -/

/-- C1.  The claim states that re-running the worker entry point for a job
whose status is terminal leaves the job row unchanged because the worker
checks the status before transitioning to PROCESSING.  The code performs no
such check: evaluated at a COMPLETED job, a re-entry whose evaluation body
fails (the staged archive was consumed by the first run) overwrites
`error_message`; a re-entry with a transient session failure leaves the job
FAILED; and when the failure-path commit fails, the evaluator leaves the
job stuck at PROCESSING — the terminal state is exited in every case. -/
theorem evaluate_model_async_reentry_mutates_terminal_job :
    (((evaluate_model_async 1 1 zipP csvP (.fail "zip missing" false []) dbCompleted ⟨[]⟩).db.findJob 1).map
        (fun j => j.errorMessage) = some (some "zip missing"))
    ∧ (((evaluate_model_async 1 1 zipP csvP (.sessionFail "database unavailable") dbCompleted ⟨[]⟩).db.findJob 1).map
        (fun j => j.status) = some .FAILED)
    ∧ (((run_evaluation_task 1 1 zipP csvP (.fail "zip missing" true []) dbCompleted ⟨[]⟩).db.findJob 1).map
        (fun j => j.status) = some .PROCESSING)
    ∧ jobCompleted.status = .COMPLETED ∧ jobCompleted.errorMessage = none := by
  decide

/-- C2.  The claim states that after the Celery wrapper plus evaluator
finish, COMPLETED implies non-empty results and empty error message.  The
code violates this: when the evaluation body raises, the evaluator marks
the job FAILED with the message and swallows the exception, and the wrapper
then unconditionally sets COMPLETED — yielding a COMPLETED job with null
results and a non-empty error message. -/
theorem evaluate_model_async_completed_with_error_and_no_results :
    (((evaluate_model_async 1 1 zipP csvP
          (.fail "Target column target not found in the dataset." false ["model.pkl"])
          dbPending ⟨[zipP, csvP]⟩).db.findJob 1).map
        (fun j => (j.status, j.results, j.errorMessage)) =
      some (.COMPLETED, none, some "Target column target not found in the dataset."))
    ∧ "Target column target not found in the dataset." ≠ "" := by
  decide

/-- C3.  The claim states that any failure after input validation leaves no
Job row, no ModelVersion row and no file from the submission.  The code
commits the model and job rows before dispatch and a rollback cannot undo
a commit, and the `temp_` size-check copy is never deleted: when the
dispatch step raises, the handler answers 500 yet one model row, one job
row and the `temp_` file remain observable. -/
theorem start_evaluation_failure_leaves_rows_and_files :
    ((start_evaluation submitEnvDispatchFails emptyDB ⟨[]⟩).2.2 =
      .rejected 500 "Evaluation setup failed: failed dispatching evaluation task")
    ∧ (start_evaluation submitEnvDispatchFails emptyDB ⟨[]⟩).1.models.length = 1
    ∧ (start_evaluation submitEnvDispatchFails emptyDB ⟨[]⟩).1.jobs.length = 1
    ∧ (start_evaluation submitEnvDispatchFails emptyDB ⟨[]⟩).2.1.hasPath
        (tempModelPath submitEnvDispatchFails) = true := by
  decide

/-- C4.  The claim states that a successful submission leaves exactly one
Job row and one ModelVersion row and no temporary file under the staging
root.  The row counts hold, but the `uploads/temp/temp_{filename}` copy
written for the size check is deleted only on the validation-failure
branches: after a fully successful submission it still exists under
`uploads/temp`. -/
theorem start_evaluation_success_leaves_temp_copy :
    ((start_evaluation submitEnvOk emptyDB ⟨[]⟩).2.2 = .accepted 1 "task-1")
    ∧ (start_evaluation submitEnvOk emptyDB ⟨[]⟩).1.jobs.length = 1
    ∧ (start_evaluation submitEnvOk emptyDB ⟨[]⟩).1.models.length = 1
    ∧ (start_evaluation submitEnvOk emptyDB ⟨[]⟩).2.1.hasPath (tempModelPath submitEnvOk) = true
    ∧ uploadTempDir.isPrefixOf (tempModelPath submitEnvOk) = true := by
  decide

/-! ## Helper lemmas about the filesystem and database models -/

theorem FS.mem_removeFile {fs : FS} {p q : Path} :
    p ∈ (fs.removeFile q).paths ↔ p ∈ fs.paths ∧ p ≠ q := by
  simp [FS.removeFile, List.mem_filter]

theorem FS.mem_rmtree {fs : FS} {p d : Path} :
    p ∈ (fs.rmtree d).paths ↔ p ∈ fs.paths ∧ ¬ d <+: p := by
  simp only [FS.rmtree, List.mem_filter, Bool.not_eq_true]
  rw [← List.isPrefixOf_iff_prefix]
  cases h : List.isPrefixOf d p <;> simp

theorem FS.hasPath_iff {fs : FS} {p : Path} : fs.hasPath p = true ↔ p ∈ fs.paths := by
  simp [FS.hasPath]

theorem mem_finallyCleanup {zipPath csvPath p : Path} {fs : FS} :
    p ∈ (finallyCleanup zipPath csvPath fs).paths ↔
      p ∈ fs.paths ∧ p ≠ zipPath ∧ p ≠ csvPath := by
  simp [finallyCleanup, FS.mem_removeFile]
  tauto

theorem DB.findJob_updateJob (db : DB) (i : Nat) (f : EvaluationJob → EvaluationJob)
    (hf : ∀ x, (f x).id = x.id) :
    (db.updateJob i f).findJob i = (db.findJob i).map f := by
  unfold DB.findJob DB.updateJob
  induction db.jobs with
  | nil => rfl
  | cons a l ih =>
      by_cases h : a.id = i
      · simp [List.find?_cons, h, hf a]
      · rw [List.map_cons, if_neg h,
          List.find?_cons_of_neg _ (by simpa using h),
          List.find?_cons_of_neg _ (by simpa using h)]
        exact ih

theorem DB.findModel_updateModel (db : DB) (i : Nat) (f : MLModel → MLModel)
    (hf : ∀ x, (f x).id = x.id) :
    (db.updateModel i f).findModel i = (db.findModel i).map f := by
  unfold DB.findModel DB.updateModel
  induction db.models with
  | nil => rfl
  | cons a l ih =>
      by_cases h : a.id = i
      · simp [List.find?_cons, h, hf a]
      · rw [List.map_cons, if_neg h,
          List.find?_cons_of_neg _ (by simpa using h),
          List.find?_cons_of_neg _ (by simpa using h)]
        exact ih

/-- C5.  For a run of the evaluator whose body raises (message `msg`): the
exception never escapes — a failure of the status-update commit (`cf`) is
absorbed; no path at or under the permanent job directory survives; the
original zip and csv are gone; and whenever the job ends FAILED its error
message is exactly the exception message.  For a successful body, the zip
and csv are likewise deleted. -/
theorem run_evaluation_task_failure_cleanup
    (jobId modelId : Nat) (zipPath csvPath : Path) (msg : String) (cf : Bool)
    (extracted : List String) (db : DB) (fs : FS) (j : EvaluationJob)
    (h : db.findJob jobId = some j) :
    (run_evaluation_task jobId modelId zipPath csvPath (.fail msg cf extracted) db fs).escaped = false
    ∧ (∀ p, jobDirPath jobId <+: p →
        p ∉ (run_evaluation_task jobId modelId zipPath csvPath (.fail msg cf extracted) db fs).fs.paths)
    ∧ zipPath ∉ (run_evaluation_task jobId modelId zipPath csvPath (.fail msg cf extracted) db fs).fs.paths
    ∧ csvPath ∉ (run_evaluation_task jobId modelId zipPath csvPath (.fail msg cf extracted) db fs).fs.paths
    ∧ (∀ j2, (run_evaluation_task jobId modelId zipPath csvPath (.fail msg cf extracted) db fs).db.findJob jobId = some j2 →
        j2.status = .FAILED → j2.errorMessage = some msg)
    ∧ (∀ d : SuccessData,
        zipPath ∉ (run_evaluation_task jobId modelId zipPath csvPath (.ok d) db fs).fs.paths
        ∧ csvPath ∉ (run_evaluation_task jobId modelId zipPath csvPath (.ok d) db fs).fs.paths) := by
  refine ⟨?_, ?_, ?_, ?_, ?_, ?_⟩
  · simp only [run_evaluation_task, h]
  · intro p hp
    simp only [run_evaluation_task, h]
    rw [mem_finallyCleanup]
    rintro ⟨hmem, -, -⟩
    exact (FS.mem_rmtree.mp hmem).2 hp
  · simp only [run_evaluation_task, h]
    rw [mem_finallyCleanup]
    rintro ⟨-, hne, -⟩
    exact hne rfl
  · simp only [run_evaluation_task, h]
    rw [mem_finallyCleanup]
    rintro ⟨-, -, hne⟩
    exact hne rfl
  · intro j2 hj2 hst
    simp only [run_evaluation_task, h] at hj2
    have h1 := DB.findJob_updateJob db jobId
      (fun j => { j with status := JobStatus.PROCESSING }) (fun _ => rfl)
    by_cases hcf : cf = true
    · rw [if_pos hcf, h1, h] at hj2
      cases hj2
      cases hst
    · have h2 := DB.findJob_updateJob
        (db.updateJob jobId (fun j => { j with status := JobStatus.PROCESSING })) jobId
        (fun j => { j with status := JobStatus.FAILED, errorMessage := some msg })
        (fun _ => rfl)
      rw [if_neg hcf, h2, h1, h] at hj2
      simp only [Option.map_some'] at hj2
      cases hj2
      rfl
  · intro d
    constructor
    · simp only [run_evaluation_task, h]
      rw [mem_finallyCleanup]
      rintro ⟨-, hne, -⟩
      exact hne rfl
    · simp only [run_evaluation_task, h]
      rw [mem_finallyCleanup]
      rintro ⟨-, -, hne⟩
      exact hne rfl

/-- Witness for `run_evaluation_task_failure_cleanup` at a concrete state. -/
theorem run_evaluation_task_failure_cleanup_witness :
    dbPending.findJob 1 = some jobPending
    ∧ ((run_evaluation_task 1 1 zipP csvP (.fail "boom" false ["model.pkl"]) dbPending ⟨[zipP, csvP]⟩).escaped = false
      ∧ (∀ p, jobDirPath 1 <+: p →
          p ∉ (run_evaluation_task 1 1 zipP csvP (.fail "boom" false ["model.pkl"]) dbPending ⟨[zipP, csvP]⟩).fs.paths)
      ∧ zipP ∉ (run_evaluation_task 1 1 zipP csvP (.fail "boom" false ["model.pkl"]) dbPending ⟨[zipP, csvP]⟩).fs.paths
      ∧ csvP ∉ (run_evaluation_task 1 1 zipP csvP (.fail "boom" false ["model.pkl"]) dbPending ⟨[zipP, csvP]⟩).fs.paths
      ∧ (∀ j2, (run_evaluation_task 1 1 zipP csvP (.fail "boom" false ["model.pkl"]) dbPending ⟨[zipP, csvP]⟩).db.findJob 1 = some j2 →
          j2.status = .FAILED → j2.errorMessage = some "boom")
      ∧ (∀ d : SuccessData,
          zipP ∉ (run_evaluation_task 1 1 zipP csvP (.ok d) dbPending ⟨[zipP, csvP]⟩).fs.paths
          ∧ csvP ∉ (run_evaluation_task 1 1 zipP csvP (.ok d) dbPending ⟨[zipP, csvP]⟩).fs.paths)) :=
  ⟨by decide,
   run_evaluation_task_failure_cleanup 1 1 zipP csvP "boom" false ["model.pkl"]
     dbPending ⟨[zipP, csvP]⟩ jobPending (by decide)⟩

/-- A model row with id 1. -/
def modelRow1 : MLModel :=
  { id := 1
    userId := "u1"
    name := "m"
    version := "v1"
    filename := zipP
    latestMetrics := some []
    taskType := none }

/-- A completed job of model 1 whose own id is 2. -/
def jobOfModel1 : EvaluationJob :=
  { id := 2
    userId := "u1"
    modelName := "m"
    modelId := 1
    status := .COMPLETED
    taskId := some "t2"
    results := some [("accuracy", JVal.num (mkRat 9 10))]
    artifacts := none
    errorMessage := none
    completedAt := some 100 }

/-- Database with model 1 and its job 2. -/
def dbModelJob : DB :=
  { jobs := [jobOfModel1], models := [modelRow1], metricRecords := [], nextJobId := 3, nextModelId := 2 }

/-- Filesystem holding the artifact directory of job 2. -/
def fsJob2 : FS :=
  { paths := [["uploads", "eval_jobs", "2"], ["uploads", "eval_jobs", "2", "model.pkl"]] }

/-- C6 counterexample.  Model 1 owns job 2, whose permanent artifact
directory `uploads/eval_jobs/2` exists; `cleanup_model_files 1` looks only
at `uploads/eval_jobs/1` (it keys the artifact root by the model id, not by
the job ids of that model), so the job directory of model 1 survives and
the filesystem is untouched — refuting the claim that the per-job
directories of the model are deleted. -/
theorem cleanup_model_files_misses_job_directory :
    jobOfModel1.modelId = modelRow1.id
    ∧ jobOfModel1 ∈ dbModelJob.jobs
    ∧ fsJob2.hasPath (jobDirPath jobOfModel1.id) = true
    ∧ (cleanup_model_files modelRow1.id fsJob2).1 = fsJob2
    ∧ (cleanup_model_files modelRow1.id fsJob2).1.hasPath (jobDirPath jobOfModel1.id) = true
    ∧ (cleanup_model_files modelRow1.id fsJob2).2.removed = false := by
  decide

/-- C6 as amended.  `cleanup_model_files model_id` deletes exactly the
directory tree rooted at `uploads/eval_jobs/{model_id}` — the directory that
the job-id-keyed layout assigns to the job whose id equals the model id —
and it is idempotent and never raises: when the target is absent it is a
no-op reporting `removed = false`, and a second application is always such
a no-op. -/
theorem cleanup_model_files_removes_model_id_tree (modelId : Nat) (fs : FS) :
    (fs.hasPath (modelCleanupDir modelId) = true →
      (∀ p, p ∈ (cleanup_model_files modelId fs).1.paths ↔
          p ∈ fs.paths ∧ ¬ modelCleanupDir modelId <+: p)
      ∧ (cleanup_model_files modelId fs).2.removed = true)
    ∧ (fs.hasPath (modelCleanupDir modelId) = false →
      (cleanup_model_files modelId fs).1 = fs
      ∧ (cleanup_model_files modelId fs).2.removed = false)
    ∧ (cleanup_model_files modelId fs).2.error = none
    ∧ cleanup_model_files modelId (cleanup_model_files modelId fs).1 =
        ((cleanup_model_files modelId fs).1,
          { modelId := modelId, removed := false, error := none }) := by
  refine ⟨?_, ?_, ?_, ?_⟩
  · intro hd
    constructor
    · intro p
      simp only [cleanup_model_files, hd, if_true]
      exact FS.mem_rmtree
    · simp only [cleanup_model_files, hd, if_true]
  · intro hd
    simp [cleanup_model_files, hd]
  · by_cases hd : fs.hasPath (modelCleanupDir modelId) = true <;>
      simp [cleanup_model_files, hd]
  · by_cases hd : fs.hasPath (modelCleanupDir modelId) = true
    · have h2 : ¬ (fs.rmtree (modelCleanupDir modelId)).hasPath (modelCleanupDir modelId) = true := by
        rw [FS.hasPath_iff, FS.mem_rmtree]
        rintro ⟨-, hpre⟩
        exact hpre (List.prefix_refl _)
      simp [cleanup_model_files, hd, h2]
    · simp [cleanup_model_files, hd]

/-- Witness for `cleanup_model_files_removes_model_id_tree` at a concrete
filesystem that does hold the target directory. -/
theorem cleanup_model_files_removes_model_id_tree_witness :
    (fsJob2.hasPath (modelCleanupDir 2) = true →
      (∀ p, p ∈ (cleanup_model_files 2 fsJob2).1.paths ↔
          p ∈ fsJob2.paths ∧ ¬ modelCleanupDir 2 <+: p)
      ∧ (cleanup_model_files 2 fsJob2).2.removed = true)
    ∧ (fsJob2.hasPath (modelCleanupDir 2) = false →
      (cleanup_model_files 2 fsJob2).1 = fsJob2
      ∧ (cleanup_model_files 2 fsJob2).2.removed = false)
    ∧ (cleanup_model_files 2 fsJob2).2.error = none
    ∧ cleanup_model_files 2 (cleanup_model_files 2 fsJob2).1 =
        ((cleanup_model_files 2 fsJob2).1,
          { modelId := 2, removed := false, error := none }) :=
  cleanup_model_files_removes_model_id_tree 2 fsJob2

/-- C7 counterexample.  The alert level of `get_storage_usage` — the
operation the submission endpoint consults (`evaluations.py` line 48) and
the `/usage` endpoint serves — is never the claimed fourth value
`high-warning` (nor the `high_warning` spelling that only the separate
`StorageMonitor.check_storage_status` produces), whatever the free space. -/
theorem storage_alert_never_high_warning :
    ¬ ∃ totalMb usedMb freeMb,
      (get_storage_usage totalMb usedMb freeMb).alertLevel = "high_warning"
      ∨ (get_storage_usage totalMb usedMb freeMb).alertLevel = "high-warning" := by
  rintro ⟨t, u, f, h | h⟩ <;>
  · simp only [get_storage_usage, storageAlertLevel] at h
    split_ifs at h <;> exact absurd h (by decide)

/-- C7 as amended.  The storage usage operation consulted by the pipeline
draws its alert level from the three values normal / warning / critical,
determined by free-space thresholds — `critical` below 1024 MB free,
`warning` from 1024 up to 5120 MB, `normal` from 5120 MB — so every
free-space value gets exactly one level and each of the three levels is
attained. -/
theorem get_storage_usage_three_alert_levels :
    (∀ totalMb usedMb freeMb,
      ((get_storage_usage totalMb usedMb freeMb).alertLevel = "critical" ↔ freeMb < 1024)
      ∧ ((get_storage_usage totalMb usedMb freeMb).alertLevel = "warning" ↔
          1024 ≤ freeMb ∧ freeMb < 5120)
      ∧ ((get_storage_usage totalMb usedMb freeMb).alertLevel = "normal" ↔ 5120 ≤ freeMb))
    ∧ (get_storage_usage 100 100 0).alertLevel = "critical"
    ∧ (get_storage_usage 100 100 2048).alertLevel = "warning"
    ∧ (get_storage_usage 100 100 8192).alertLevel = "normal" := by
  refine ⟨?_, by decide, by decide, by decide⟩
  intro t u f
  simp only [get_storage_usage, storageAlertLevel]
  split_ifs with h1 h2 <;>
    refine ⟨⟨fun hh => ?_, fun hh => ?_⟩, ⟨fun hh => ?_, fun hh => ?_⟩, ⟨fun hh => ?_, fun hh => ?_⟩⟩ <;>
    first
      | rfl
      | omega
      | exact absurd hh (by decide)
      | exact absurd hh (by omega)

/-- C9.  The age-based sweep is idempotent and exact: for a fixed reference
time and a fixed set of failing removals, a second run straight after the
first removes nothing; one run removes exactly the files under
`uploads/eval_jobs/` older than the cutoff whose removal does not fail, and
collects exactly the failing old files into the per-file error list instead
of raising; afterwards a file survives iff it was not removed. -/
theorem cleanup_old_files_idempotent_and_exact
    (daysOld : Nat) (now : Int) (failRemove : Path → Bool) (fs : TimedFS) :
    ((cleanup_old_files daysOld now failRemove
        (cleanup_old_files daysOld now failRemove fs).1).2.removedPaths = [])
    ∧ (∀ p, p ∈ (cleanup_old_files daysOld now failRemove fs).2.removedPaths ↔
        ∃ f, f ∈ fs.files ∧ f.path = p ∧ sweepOld daysOld now f = true
          ∧ failRemove f.path = false)
    ∧ (∀ p, p ∈ (cleanup_old_files daysOld now failRemove fs).2.errorPaths ↔
        ∃ f, f ∈ fs.files ∧ f.path = p ∧ sweepOld daysOld now f = true
          ∧ failRemove f.path = true)
    ∧ (∀ f, f ∈ (cleanup_old_files daysOld now failRemove fs).1.files ↔
        f ∈ fs.files ∧ ¬ (sweepOld daysOld now f = true ∧ failRemove f.path = false)) := by
  refine ⟨?_, ?_, ?_, ?_⟩
  · simp only [cleanup_old_files]
    rw [List.map_eq_nil, List.filter_filter, List.filter_filter, List.filter_eq_nil]
    intro f _
    cases hold : sweepOld daysOld now f <;> cases hfail : failRemove f.path <;>
      simp [hold, hfail]
  · intro p
    simp only [cleanup_old_files, List.mem_map, List.mem_filter]
    constructor
    · rintro ⟨f, ⟨⟨hmem, hold⟩, hfail⟩, rfl⟩
      exact ⟨f, hmem, rfl, hold, by simpa using hfail⟩
    · rintro ⟨f, hmem, rfl, hold, hfail⟩
      exact ⟨f, ⟨⟨hmem, hold⟩, by simpa using hfail⟩, rfl⟩
  · intro p
    simp only [cleanup_old_files, List.mem_map, List.mem_filter]
    constructor
    · rintro ⟨f, ⟨⟨hmem, hold⟩, hfail⟩, rfl⟩
      exact ⟨f, hmem, rfl, hold, hfail⟩
    · rintro ⟨f, hmem, rfl, hold, hfail⟩
      exact ⟨f, ⟨⟨hmem, hold⟩, hfail⟩, rfl⟩
  · intro f
    simp only [cleanup_old_files, List.mem_filter]
    constructor
    · rintro ⟨hmem, hcond⟩
      refine ⟨hmem, ?_⟩
      rintro ⟨hold, hfail⟩
      rw [hold, hfail] at hcond
      simp at hcond
    · rintro ⟨hmem, hcond⟩
      refine ⟨hmem, ?_⟩
      cases hold : sweepOld daysOld now f <;> cases hfail : failRemove f.path <;>
        simp_all

/-! ## Characterization of the insight generator -/

theorem mem_regression_sub {m : List (String × ℚ)} {s : String}
    (h : s ∈ regressionInsightList m) :
    s = insightLowR2 ∨ s = insightStrongR2 ∨ s = insightHighRmse := by
  unfold regressionInsightList at h
  rcases h1 : metricLookup m "r2_score" with _ | v <;>
  rcases h2 : metricLookup m "rmse" with _ | w <;>
    simp only [h1, h2] at h <;>
    (try split_ifs at h) <;>
    simp_all <;>
    tauto

theorem mem_classification_sub {m : List (String × ℚ)} {s : String}
    (h : s ∈ classificationInsightList m) :
    s = insightLowF1 ∨ s = insightLowAuc ∨ s = insightAucF1Mismatch ∨ s = insightLowAccuracy := by
  unfold classificationInsightList at h
  rcases h1 : metricLookup m "f1_score" with _ | v <;>
  rcases h2 : metricLookup m "auc" with _ | w <;>
  rcases h3 : metricLookup m "accuracy" with _ | u <;>
    simp only [h1, h2, h3] at h <;>
    (try split_ifs at h) <;>
    simp_all <;>
    tauto

theorem lowR2_mem_regression (m : List (String × ℚ)) :
    insightLowR2 ∈ regressionInsightList m ↔
      ∃ v, metricLookup m "r2_score" = some v ∧ v < mkRat 1 2 := by
  unfold regressionInsightList
  rcases h1 : metricLookup m "r2_score" with _ | v <;>
  rcases h2 : metricLookup m "rmse" with _ | w <;>
    simp only [h1, h2] <;>
    (try split_ifs) <;>
    simp_all [insightLowR2, insightStrongR2, insightHighRmse] <;>
    tauto

theorem strongR2_mem_regression (m : List (String × ℚ)) :
    insightStrongR2 ∈ regressionInsightList m ↔
      ∃ v, metricLookup m "r2_score" = some v ∧ mkRat 17 20 < v := by
  have hq : (mkRat 1 2 : ℚ) < mkRat 17 20 := by decide
  unfold regressionInsightList
  rcases h1 : metricLookup m "r2_score" with _ | v <;>
  rcases h2 : metricLookup m "rmse" with _ | w <;>
    simp only [h1, h2] <;>
    (try split_ifs) <;>
    simp_all [insightLowR2, insightStrongR2, insightHighRmse] <;>
    first
      | tauto
      | linarith

theorem highRmse_mem_regression (m : List (String × ℚ)) :
    insightHighRmse ∈ regressionInsightList m ↔
      ∃ v, metricLookup m "rmse" = some v ∧ mkRat 1 1 < v := by
  unfold regressionInsightList
  rcases h1 : metricLookup m "r2_score" with _ | v <;>
  rcases h2 : metricLookup m "rmse" with _ | w <;>
    simp only [h1, h2] <;>
    (try split_ifs) <;>
    simp_all [insightLowR2, insightStrongR2, insightHighRmse] <;>
    tauto

theorem lowF1_mem_classification (m : List (String × ℚ)) :
    insightLowF1 ∈ classificationInsightList m ↔
      ∃ v, metricLookup m "f1_score" = some v ∧ v < mkRat 7 10 := by
  unfold classificationInsightList
  rcases h1 : metricLookup m "f1_score" with _ | v <;>
  rcases h2 : metricLookup m "auc" with _ | w <;>
  rcases h3 : metricLookup m "accuracy" with _ | u <;>
    simp only [h1, h2, h3] <;>
    (try split_ifs) <;>
    simp_all [insightLowF1, insightLowAuc, insightAucF1Mismatch, insightLowAccuracy] <;>
    tauto

theorem lowAuc_mem_classification (m : List (String × ℚ)) :
    insightLowAuc ∈ classificationInsightList m ↔
      ∃ v, metricLookup m "auc" = some v ∧ v < mkRat 7 10 := by
  unfold classificationInsightList
  rcases h1 : metricLookup m "f1_score" with _ | v <;>
  rcases h2 : metricLookup m "auc" with _ | w <;>
  rcases h3 : metricLookup m "accuracy" with _ | u <;>
    simp only [h1, h2, h3] <;>
    (try split_ifs) <;>
    simp_all [insightLowF1, insightLowAuc, insightAucF1Mismatch, insightLowAccuracy] <;>
    tauto

theorem mismatch_mem_classification (m : List (String × ℚ)) :
    insightAucF1Mismatch ∈ classificationInsightList m ↔
      ∃ a f, metricLookup m "auc" = some a ∧ metricLookup m "f1_score" = some f
        ∧ mkRat 9 10 < a ∧ f < mkRat 4 5 := by
  unfold classificationInsightList
  rcases h1 : metricLookup m "f1_score" with _ | v <;>
  rcases h2 : metricLookup m "auc" with _ | w <;>
  rcases h3 : metricLookup m "accuracy" with _ | u <;>
    simp only [h1, h2, h3] <;>
    (try split_ifs) <;>
    simp_all [insightLowF1, insightLowAuc, insightAucF1Mismatch, insightLowAccuracy] <;>
    tauto

theorem lowAccuracy_mem_classification (m : List (String × ℚ)) :
    insightLowAccuracy ∈ classificationInsightList m ↔
      ∃ v, metricLookup m "accuracy" = some v ∧ v < mkRat 3 5 := by
  unfold classificationInsightList
  rcases h1 : metricLookup m "f1_score" with _ | v <;>
  rcases h2 : metricLookup m "auc" with _ | w <;>
  rcases h3 : metricLookup m "accuracy" with _ | u <;>
    simp only [h1, h2, h3] <;>
    (try split_ifs) <;>
    simp_all [insightLowF1, insightLowAuc, insightAucF1Mismatch, insightLowAccuracy] <;>
    tauto

theorem mem_generate_insights_of_ne (m : List (String × ℚ)) {s : String}
    (hs : s ≠ insightDefault) :
    (s ∈ generate_insights m ↔
      s ∈ (if (metricLookup m "rmse").isSome then regressionInsightList m
           else classificationInsightList m)) := by
  simp only [generate_insights]
  by_cases hb : (if (metricLookup m "rmse").isSome then regressionInsightList m
      else classificationInsightList m).isEmpty = true
  · rw [if_pos hb, List.isEmpty_iff.mp hb]
    simp [hs]
  · rw [if_neg hb]

theorem generate_insights_default_iff (m : List (String × ℚ)) :
    generate_insights m = [insightDefault] ↔
      (if (metricLookup m "rmse").isSome then regressionInsightList m
       else classificationInsightList m) = [] := by
  simp only [generate_insights]
  by_cases hb : (if (metricLookup m "rmse").isSome then regressionInsightList m
      else classificationInsightList m).isEmpty = true
  · rw [if_pos hb, List.isEmpty_iff.mp hb]
    simp
  · rw [if_neg hb]
    constructor
    · intro hEq
      exfalso
      have hmem : insightDefault ∈
          (if (metricLookup m "rmse").isSome then regressionInsightList m
           else classificationInsightList m) := by
        rw [hEq]
        exact List.mem_singleton_self _
      by_cases hr : (metricLookup m "rmse").isSome = true
      · rw [if_pos hr] at hmem
        rcases mem_regression_sub hmem with h | h | h <;> revert h <;> decide
      · rw [if_neg hr] at hmem
        rcases mem_classification_sub hmem with h | h | h | h <;> revert h <;> decide
    · intro h0
      refine absurd ?_ hb
      rw [h0]
      rfl

/-- C8.  For every metrics dictionary, exactly one rule set runs — each
classification insight can appear only when the dictionary is not a
regression one (no `rmse` key) and vice versa: each of the seven insights is
present iff its selector and threshold condition hold (F1 < 0.7, AUC < 0.7,
AUC > 0.9 with F1 < 0.8, accuracy < 0.6; R² < 0.5, R² > 0.85, RMSE > 1.0);
the output is exactly the single positive default insight iff no rule
fired; and the output is never empty. -/
theorem generate_insights_rule_characterization (m : List (String × ℚ)) :
    (insightLowF1 ∈ generate_insights m ↔
      (metricLookup m "rmse").isSome = false
      ∧ ∃ v, metricLookup m "f1_score" = some v ∧ v < mkRat 7 10)
    ∧ (insightLowAuc ∈ generate_insights m ↔
      (metricLookup m "rmse").isSome = false
      ∧ ∃ v, metricLookup m "auc" = some v ∧ v < mkRat 7 10)
    ∧ (insightAucF1Mismatch ∈ generate_insights m ↔
      (metricLookup m "rmse").isSome = false
      ∧ ∃ a f, metricLookup m "auc" = some a ∧ metricLookup m "f1_score" = some f
          ∧ mkRat 9 10 < a ∧ f < mkRat 4 5)
    ∧ (insightLowAccuracy ∈ generate_insights m ↔
      (metricLookup m "rmse").isSome = false
      ∧ ∃ v, metricLookup m "accuracy" = some v ∧ v < mkRat 3 5)
    ∧ (insightLowR2 ∈ generate_insights m ↔
      (metricLookup m "rmse").isSome = true
      ∧ ∃ v, metricLookup m "r2_score" = some v ∧ v < mkRat 1 2)
    ∧ (insightStrongR2 ∈ generate_insights m ↔
      (metricLookup m "rmse").isSome = true
      ∧ ∃ v, metricLookup m "r2_score" = some v ∧ mkRat 17 20 < v)
    ∧ (insightHighRmse ∈ generate_insights m ↔
      (metricLookup m "rmse").isSome = true
      ∧ ∃ v, metricLookup m "rmse" = some v ∧ mkRat 1 1 < v)
    ∧ (generate_insights m = [insightDefault] ↔
      (insightLowF1 ∉ generate_insights m ∧ insightLowAuc ∉ generate_insights m
        ∧ insightAucF1Mismatch ∉ generate_insights m
        ∧ insightLowAccuracy ∉ generate_insights m
        ∧ insightLowR2 ∉ generate_insights m ∧ insightStrongR2 ∉ generate_insights m
        ∧ insightHighRmse ∉ generate_insights m))
    ∧ generate_insights m ≠ [] := by
  have hcls : ∀ s : String, s = insightLowF1 ∨ s = insightLowAuc ∨ s = insightAucF1Mismatch
      ∨ s = insightLowAccuracy → s ≠ insightDefault := by
    rintro s (rfl | rfl | rfl | rfl) <;> decide
  have hreg : ∀ s : String, s = insightLowR2 ∨ s = insightStrongR2 ∨ s = insightHighRmse →
      s ≠ insightDefault := by
    rintro s (rfl | rfl | rfl) <;> decide
  -- bridge each message to its branch list
  have bridge : ∀ s : String, s ≠ insightDefault →
      (s ∈ generate_insights m ↔
        s ∈ (if (metricLookup m "rmse").isSome then regressionInsightList m
             else classificationInsightList m)) :=
    fun s hs => mem_generate_insights_of_ne m hs
  have notRegCls : ∀ s : String,
      (s = insightLowF1 ∨ s = insightLowAuc ∨ s = insightAucF1Mismatch
        ∨ s = insightLowAccuracy) → s ∉ regressionInsightList m := by
    rintro s hs hmem
    rcases mem_regression_sub hmem with h | h | h <;> rcases hs with rfl | rfl | rfl | rfl <;>
      revert h <;> decide
  have notClsReg : ∀ s : String,
      (s = insightLowR2 ∨ s = insightStrongR2 ∨ s = insightHighRmse) →
        s ∉ classificationInsightList m := by
    rintro s hs hmem
    rcases mem_classification_sub hmem with h | h | h | h <;> rcases hs with rfl | rfl | rfl <;>
      revert h <;> decide
  by_cases hr : (metricLookup m "rmse").isSome = true
  · -- regression dictionary: the classification messages never appear
    have hbr : ∀ s : String, s ≠ insightDefault →
        (s ∈ generate_insights m ↔ s ∈ regressionInsightList m) := by
      intro s hs
      rw [bridge s hs, if_pos hr]
    have hrf : ((metricLookup m "rmse").isSome = false) = False := by
      simp [hr]
    refine ⟨?_, ?_, ?_, ?_, ?_, ?_, ?_, ?_, ?_⟩
    · rw [hbr _ (hcls _ (Or.inl rfl)), hrf]
      simp only [false_and, iff_false]
      exact notRegCls _ (Or.inl rfl)
    · rw [hbr _ (hcls _ (Or.inr (Or.inl rfl))), hrf]
      simp only [false_and, iff_false]
      exact notRegCls _ (Or.inr (Or.inl rfl))
    · rw [hbr _ (hcls _ (Or.inr (Or.inr (Or.inl rfl)))), hrf]
      simp only [false_and, iff_false]
      exact notRegCls _ (Or.inr (Or.inr (Or.inl rfl)))
    · rw [hbr _ (hcls _ (Or.inr (Or.inr (Or.inr rfl)))), hrf]
      simp only [false_and, iff_false]
      exact notRegCls _ (Or.inr (Or.inr (Or.inr rfl)))
    · rw [hbr _ (hreg _ (Or.inl rfl)), hr, lowR2_mem_regression]
      simp
    · rw [hbr _ (hreg _ (Or.inr (Or.inl rfl))), hr, strongR2_mem_regression]
      simp
    · rw [hbr _ (hreg _ (Or.inr (Or.inr rfl))), hr, highRmse_mem_regression]
      simp
    · rw [generate_insights_default_iff, if_pos hr]
      constructor
      · intro h0
        refine ⟨?_, ?_, ?_, ?_, ?_, ?_, ?_⟩ <;>
          rw [hbr _ (by decide)] <;> rw [h0] <;> exact List.not_mem_nil _
      · rintro ⟨-, -, -, -, h5, h6, h7⟩
        rw [List.eq_nil_iff_forall_not_mem]
        intro s hs
        have hsd := hreg s (mem_regression_sub hs)
        rcases mem_regression_sub hs with rfl | rfl | rfl
        · exact h5 ((hbr _ hsd).mpr hs)
        · exact h6 ((hbr _ hsd).mpr hs)
        · exact h7 ((hbr _ hsd).mpr hs)
    · simp only [generate_insights]
      by_cases hb : (if (metricLookup m "rmse").isSome then regressionInsightList m
          else classificationInsightList m).isEmpty = true
      · rw [if_pos hb]
        decide
      · rw [if_neg hb]
        intro h0
        exact hb (by rw [h0]; rfl)
  · -- classification dictionary: the regression messages never appear
    have hrf : (metricLookup m "rmse").isSome = false := by
      simpa using hr
    have hbr : ∀ s : String, s ≠ insightDefault →
        (s ∈ generate_insights m ↔ s ∈ classificationInsightList m) := by
      intro s hs
      rw [bridge s hs, if_neg hr]
    have hrt : ((metricLookup m "rmse").isSome = true) = False := by
      simp [hrf]
    refine ⟨?_, ?_, ?_, ?_, ?_, ?_, ?_, ?_, ?_⟩
    · rw [hbr _ (hcls _ (Or.inl rfl)), hrf, lowF1_mem_classification]
      simp
    · rw [hbr _ (hcls _ (Or.inr (Or.inl rfl))), hrf, lowAuc_mem_classification]
      simp
    · rw [hbr _ (hcls _ (Or.inr (Or.inr (Or.inl rfl)))), hrf, mismatch_mem_classification]
      simp
    · rw [hbr _ (hcls _ (Or.inr (Or.inr (Or.inr rfl)))), hrf, lowAccuracy_mem_classification]
      simp
    · rw [hbr _ (hreg _ (Or.inl rfl)), hrt]
      simp only [false_and, iff_false]
      exact notClsReg _ (Or.inl rfl)
    · rw [hbr _ (hreg _ (Or.inr (Or.inl rfl))), hrt]
      simp only [false_and, iff_false]
      exact notClsReg _ (Or.inr (Or.inl rfl))
    · rw [hbr _ (hreg _ (Or.inr (Or.inr rfl))), hrt]
      simp only [false_and, iff_false]
      exact notClsReg _ (Or.inr (Or.inr rfl))
    · rw [generate_insights_default_iff, if_neg hr]
      constructor
      · intro h0
        refine ⟨?_, ?_, ?_, ?_, ?_, ?_, ?_⟩ <;>
          rw [hbr _ (by decide)] <;> rw [h0] <;> exact List.not_mem_nil _
      · rintro ⟨h1, h2, h3, h4, -, -, -⟩
        rw [List.eq_nil_iff_forall_not_mem]
        intro s hs
        have hsd := hcls s (mem_classification_sub hs)
        rcases mem_classification_sub hs with rfl | rfl | rfl | rfl
        · exact h1 ((hbr _ hsd).mpr hs)
        · exact h2 ((hbr _ hsd).mpr hs)
        · exact h3 ((hbr _ hsd).mpr hs)
        · exact h4 ((hbr _ hsd).mpr hs)
    · simp only [generate_insights]
      by_cases hb : (if (metricLookup m "rmse").isSome then regressionInsightList m
          else classificationInsightList m).isEmpty = true
      · rw [if_pos hb]
        decide
      · rw [if_neg hb]
        intro h0
        exact hb (by rw [h0]; rfl)

/-! ## Persisted metric payloads (C10) -/

/-- External-call outcomes of a successful binary-classifier evaluation
whose model exposes no probability output, so no AUC is computable. -/
def evalOkData : SuccessData :=
  { estimatorType := some "classifier"
    nUniqueTarget := 2
    targetDiscrete := true
    nUniqueTest := 2
    accuracy := mkRat 9 10
    f1 := mkRat 4 5
    hasProba := false
    probaCols := 0
    aucScore := Except.error "probabilities unavailable"
    rmse := 0
    r2 := 0
    plotOk := true
    preprocessorInPackage := true
    autoPreprocessorBuilt := false
    packageFiles := ["model.pkl", "preprocessor.pkl"]
    finishTime := 50 }

/-- Database holding the pending job 1 and its model 1. -/
def dbPendingModel : DB :=
  { jobs := [jobPending], models := [modelRow1], metricRecords := [], nextJobId := 2, nextModelId := 2 }

/-- C10 counterexample.  After a completed evaluation, the source assigns the
very dict object that already received the `insights` key to
`ml_model.latest_metrics` and to the new `Metric.values` (lines 236-247), so
the appended MetricRecord and the ModelVersion snapshot carry an `insights`
entry — a list of strings, not a computed metric rounded to 4 decimal
places; the claim that these payloads contain only computed metric values
fails (the AUC key is nevertheless absent, not null). -/
theorem metric_record_and_snapshot_carry_insights :
    ((run_evaluation_task 1 1 zipP csvP (.ok evalOkData) dbPendingModel ⟨[zipP, csvP]⟩).db.metricRecords.map
        (fun r => r.values) =
      [[("accuracy", JVal.num (mkRat 9 10)), ("f1_score", JVal.num (mkRat 4 5)),
        ("insights", JVal.strList [insightDefault])]])
    ∧ (((run_evaluation_task 1 1 zipP csvP (.ok evalOkData) dbPendingModel ⟨[zipP, csvP]⟩).db.findModel 1).map
        (fun mm => mm.latestMetrics) =
      some (some [("accuracy", JVal.num (mkRat 9 10)), ("f1_score", JVal.num (mkRat 4 5)),
        ("insights", JVal.strList [insightDefault])]))
    ∧ JVal.isNum (JVal.strList [insightDefault]) = false
    ∧ JVal.isNum (JVal.num (mkRat 9 10)) = true := by
  decide

/-- C10 as amended.  On a successful run the job results, the model snapshot
and the appended MetricRecord all receive the same payload `resultsJson d`
(the metric dict with the insights list added in place); in that payload no
value is null, every numeric entry is a computed raw metric rounded to
4 decimal places, and the `auc` key maps to the rounded score exactly when
an AUC was computed — it is absent (never null) otherwise and in
regression runs. -/
theorem run_evaluation_success_persisted_payloads
    (jobId modelId : Nat) (zipPath csvPath : Path) (d : SuccessData) (db : DB) (fs : FS)
    (j : EvaluationJob) (h : db.findJob jobId = some j) :
    (∀ j2, (run_evaluation_task jobId modelId zipPath csvPath (.ok d) db fs).db.findJob jobId = some j2 →
        j2.results = some (resultsJson d) ∧ j2.status = .COMPLETED)
    ∧ (run_evaluation_task jobId modelId zipPath csvPath (.ok d) db fs).db.metricRecords =
        db.metricRecords ++ [⟨modelId, resultsJson d, d.finishTime⟩]
    ∧ (∀ m2, (run_evaluation_task jobId modelId zipPath csvPath (.ok d) db fs).db.findModel modelId = some m2 →
        m2.latestMetrics = some (resultsJson d))
    ∧ (∀ kv, kv ∈ resultsJson d → kv.2 ≠ JVal.null)
    ∧ (∀ k v, (k, JVal.num v) ∈ resultsJson d →
        ∃ w, (k, some w) ∈ rawMetrics d ∧ v = round4 w)
    ∧ (isClassificationOf d = true →
        (resultsJson d).lookup "auc" = (classifAuc d).map (fun v => JVal.num (round4 v)))
    ∧ (isClassificationOf d = false → (resultsJson d).lookup "auc" = none) := by
  have hj1 := DB.findJob_updateJob db jobId
    (fun j => { j with status := JobStatus.PROCESSING }) (fun _ => rfl)
  have hj2 := DB.findJob_updateJob
    (db.updateJob jobId (fun j => { j with status := JobStatus.PROCESSING })) jobId
    (fun j => { j with
      status := JobStatus.COMPLETED
      results := some (resultsJson d)
      artifacts := some (artifactsJson jobId d)
      completedAt := some d.finishTime }) (fun _ => rfl)
  refine ⟨?_, ?_, ?_, ?_, ?_, ?_, ?_⟩
  · intro j2 hfound
    simp only [run_evaluation_task, h] at hfound
    revert hfound
    rcases hm : ((db.updateJob jobId (fun j => { j with status := JobStatus.PROCESSING })).updateJob jobId
        (fun j => { j with
          status := JobStatus.COMPLETED
          results := some (resultsJson d)
          artifacts := some (artifactsJson jobId d)
          completedAt := some d.finishTime })).findModel modelId with _ | m0 <;>
      intro hfound <;>
      · have hfound2 : ((db.updateJob jobId (fun j => { j with status := JobStatus.PROCESSING })).updateJob jobId
            (fun j => { j with
              status := JobStatus.COMPLETED
              results := some (resultsJson d)
              artifacts := some (artifactsJson jobId d)
              completedAt := some d.finishTime })).findJob jobId = some j2 := hfound
        rw [hj2, hj1, h] at hfound2
        simp only [Option.map_some'] at hfound2
        cases hfound2
        exact ⟨rfl, rfl⟩
  · simp only [run_evaluation_task, h]
    rcases hm : ((db.updateJob jobId (fun j => { j with status := JobStatus.PROCESSING })).updateJob jobId
        (fun j => { j with
          status := JobStatus.COMPLETED
          results := some (resultsJson d)
          artifacts := some (artifactsJson jobId d)
          completedAt := some d.finishTime })).findModel modelId with _ | m0 <;>
      rfl
  · intro m2 hfound
    simp only [run_evaluation_task, h] at hfound
    revert hfound
    rcases hm : ((db.updateJob jobId (fun j => { j with status := JobStatus.PROCESSING })).updateJob jobId
        (fun j => { j with
          status := JobStatus.COMPLETED
          results := some (resultsJson d)
          artifacts := some (artifactsJson jobId d)
          completedAt := some d.finishTime })).findModel modelId with _ | m0 <;>
      intro hfound
    · have hfound2 : ((db.updateJob jobId (fun j => { j with status := JobStatus.PROCESSING })).updateJob jobId
          (fun j => { j with
            status := JobStatus.COMPLETED
            results := some (resultsJson d)
            artifacts := some (artifactsJson jobId d)
            completedAt := some d.finishTime })).findModel modelId = some m2 := hfound
      rw [hm] at hfound2
      cases hfound2
    · have hfound2 : (((db.updateJob jobId (fun j => { j with status := JobStatus.PROCESSING })).updateJob jobId
          (fun j => { j with
            status := JobStatus.COMPLETED
            results := some (resultsJson d)
            artifacts := some (artifactsJson jobId d)
            completedAt := some d.finishTime })).updateModel modelId
          (fun m => { m with
            latestMetrics := some (resultsJson d)
            taskType :=
              some (if isClassificationOf d then "classification" else "regression") })).findModel modelId = some m2 := hfound
      have hmm := DB.findModel_updateModel
        ((db.updateJob jobId (fun j => { j with status := JobStatus.PROCESSING })).updateJob jobId
          (fun j => { j with
            status := JobStatus.COMPLETED
            results := some (resultsJson d)
            artifacts := some (artifactsJson jobId d)
            completedAt := some d.finishTime })) modelId
        (fun m => { m with
          latestMetrics := some (resultsJson d)
          taskType :=
            some (if isClassificationOf d then "classification" else "regression") })
        (fun _ => rfl)
      rw [hmm, hm] at hfound2
      simp only [Option.map_some'] at hfound2
      cases hfound2
      rfl
  · intro kv hkv
    rcases List.mem_append.mp hkv with hkv | hkv
    · rcases List.mem_map.mp hkv with ⟨kv0, -, rfl⟩
      exact fun hnull => JVal.noConfusion hnull
    · rcases List.mem_singleton.mp hkv with rfl
      exact fun hnull => JVal.noConfusion hnull
  · intro k v hkv
    rcases List.mem_append.mp hkv with hkv | hkv
    · rcases List.mem_map.mp hkv with ⟨kv0, hkv0, heq⟩
      rcases List.mem_filterMap.mp hkv0 with ⟨kv1, hkv1, hsome⟩
      rcases hw : kv1.2 with _ | w
      · rw [hw] at hsome
        cases hsome
      · rw [hw] at hsome
        simp only [Option.map_some'] at hsome
        cases hsome
        cases heq
        exact ⟨w, by rw [← hw]; exact hkv1, rfl⟩
    · rcases List.mem_singleton.mp hkv with heq
      cases heq
  · intro hcls
    have hba : (("auc" : String) == "accuracy") = false := by decide
    have hbf : (("auc" : String) == "f1_score") = false := by decide
    have hbi : (("auc" : String) == "insights") = false := by decide
    have hbb : (("auc" : String) == "auc") = true := by decide
    rcases ha : classifAuc d with _ | a <;>
      simp [resultsJson, finalMetrics, rawMetrics, hcls, ha, List.lookup, hba, hbf, hbi, hbb]
  · intro hcls
    have hbr : (("auc" : String) == "rmse") = false := by decide
    have hb2 : (("auc" : String) == "r2_score") = false := by decide
    have hbi : (("auc" : String) == "insights") = false := by decide
    simp [resultsJson, finalMetrics, rawMetrics, hcls, List.lookup, hbr, hb2, hbi]

/-- Witness for `run_evaluation_success_persisted_payloads` at a concrete
state. -/
theorem run_evaluation_success_persisted_payloads_witness :
    dbPendingModel.findJob 1 = some jobPending
    ∧ ((∀ j2, (run_evaluation_task 1 1 zipP csvP (.ok evalOkData) dbPendingModel ⟨[zipP, csvP]⟩).db.findJob 1 = some j2 →
          j2.results = some (resultsJson evalOkData) ∧ j2.status = .COMPLETED)
      ∧ (run_evaluation_task 1 1 zipP csvP (.ok evalOkData) dbPendingModel ⟨[zipP, csvP]⟩).db.metricRecords =
          dbPendingModel.metricRecords ++ [⟨1, resultsJson evalOkData, evalOkData.finishTime⟩]
      ∧ (∀ m2, (run_evaluation_task 1 1 zipP csvP (.ok evalOkData) dbPendingModel ⟨[zipP, csvP]⟩).db.findModel 1 = some m2 →
          m2.latestMetrics = some (resultsJson evalOkData))
      ∧ (∀ kv, kv ∈ resultsJson evalOkData → kv.2 ≠ JVal.null)
      ∧ (∀ k v, (k, JVal.num v) ∈ resultsJson evalOkData →
          ∃ w, (k, some w) ∈ rawMetrics evalOkData ∧ v = round4 w)
      ∧ (isClassificationOf evalOkData = true →
          (resultsJson evalOkData).lookup "auc" =
            (classifAuc evalOkData).map (fun v => JVal.num (round4 v)))
      ∧ (isClassificationOf evalOkData = false →
          (resultsJson evalOkData).lookup "auc" = none)) :=
  ⟨by decide,
   run_evaluation_success_persisted_payloads 1 1 zipP csvP evalOkData dbPendingModel
     ⟨[zipP, csvP]⟩ jobPending (by decide)⟩

end ModelWhiz
